import Mathlib

/-!
Shallow embedding of the notification delivery pipeline of
`services/notifier.py` and of the configuration in `core/config.py`
(repository `topn-telegram`).

Python strings are modelled as `List Char`; Python `None`/missing record
fields as `Option`; exceptions as an explicit `Option ErrKind` result
component; the I/O performed by one call (cache reads and writes, platform
sends, sleeps, bookkeeping updates) as a list of events.
-/

-- =====================================================================
-- Definitions (the embedding)
-- =====================================================================

/-- Python `str`, modelled as a list of characters. -/
abbrev Str := List Char

/-- Converts a Lean string literal into the `Str` model. -/
def pyStr (s : String) : Str := s.toList

/-- The reserved MarkdownV2 characters of `notifier.py` line 274:
`escape_chars = r"_*[]()~`>#+-=|{}.!"`. -/
def escapeChars : Str := pyStr "_*[]()~`>#+-=|\x7b\x7d.!"

/-- Python `text.replace(c, "\" + c)` for a one-character pattern `c`:
every occurrence of `c` is replaced by a backslash followed by `c`.
(`notifier.py` line 276 only ever replaces one-character patterns.) -/
def replace1 (c : Char) (s : Str) : Str :=
  s.flatMap fun a => if a = c then ['\\', c] else [a]

/-- Embeds `_escape_markdown_v2` (`notifier.py` lines 267-277): empty input is
returned unchanged, otherwise each reserved character is replaced by a
backslash plus itself, one character at a time in the order of
`escapeChars`. -/
def escapeMarkdownV2 (s : Str) : Str :=
  if s = [] then s else escapeChars.foldl (fun t c => replace1 c t) s

/-- Embeds `bold_telegram_md` (`notifier.py` lines 280-288): empty input gives
the empty string, otherwise the escaped text wrapped in `*...*`. -/
def boldTelegramMd (s : Str) : Str :=
  if s = [] then [] else '*' :: (escapeMarkdownV2 s ++ ['*'])

-- ---------------------------------------------------------------------
-- Lemmas about the escape fold
-- ---------------------------------------------------------------------

/-- The characters removed by Python `str.strip()`. -/
def pyIsSpace (c : Char) : Bool :=
  c = ' ' || c = '\t' || c = '\n' || c = '\r' || c = '\x0b' || c = '\x0c'

/-- Python `str.strip()`: removes leading and trailing whitespace. -/
def pyStrip (s : Str) : Str :=
  ((s.dropWhile pyIsSpace).reverse.dropWhile pyIsSpace).reverse

/-- Python `str.split(sep)` for a one-character separator: splits on every
occurrence, keeping empty pieces (`"".split(sep) == [""]`). -/
def splitOnChar (sep : Char) : Str → List Str
  | [] => [[]]
  | c :: rest =>
    match splitOnChar sep rest with
    | [] => [[]]
    | g :: gs => if c = sep then [] :: g :: gs else (c :: g) :: gs

/-- Recursion worker for `pyReplace`; `fuel` only bounds the recursion
depth (any `fuel ≥ s.length` gives the same result) and keeps the
definition structural, hence kernel-computable. -/
def pyReplaceAux (pat rep : Str) : ℕ → Str → Str
  | _, [] => []
  | 0, s => s
  | fuel + 1, c :: rest =>
    if pat ≠ [] ∧ pat.isPrefixOf (c :: rest) then
      rep ++ pyReplaceAux pat rep fuel ((c :: rest).drop pat.length)
    else
      c :: pyReplaceAux pat rep fuel rest

/-- Python `str.replace(pat, rep)` for a nonempty pattern: replaces
non-overlapping occurrences left to right. (With an empty pattern this
model is the identity; the source only ever uses nonempty patterns.) -/
def pyReplace (pat rep s : Str) : Str := pyReplaceAux pat rep s.length s

-- ---------------------------------------------------------------------
-- The description-extras block of `_format_item_text`
-- (`notifier.py` lines 294-313 and 370-377)
-- ---------------------------------------------------------------------

/-- The `extra` dictionary built by the for-loop over the description
lines (`notifier.py` lines 300-313). -/
structure Extras where
  price_info : Option Str := none
  deposit_info : Option Str := none
  animals_info : Option Str := none
  rent_info : Option Str := none
deriving DecidableEq, Repr

/-- One iteration of the for-loop over `desc_lines` (`notifier.py`
lines 301-313): an if/elif chain keyed on the line's leading keyword. -/
def updateExtra (e : Extras) (line : Str) : Extras :=
  if (pyStr "price:").isPrefixOf line then
    { e with price_info := some (pyStrip (pyReplace (pyStr "price:") (pyStr "Price:") line)) }
  else if (pyStr "deposit:").isPrefixOf line then
    { e with deposit_info := some (pyStrip (pyReplace (pyStr "deposit:") (pyStr "Deposit:") line)) }
  else if (pyStr "animals_allowed:").isPrefixOf line then
    let v := pyStrip (pyReplace (pyStr "animals_allowed:") [] line)
    if v = pyStr "true" then { e with animals_info := some (pyStr "Pets: Allowed") }
    else if v = pyStr "false" then { e with animals_info := some (pyStr "Pets: Not allowed") }
    else e
  else if (pyStr "rent:").isPrefixOf line then
    { e with rent_info := some (pyStrip (pyReplace (pyStr "rent:") (pyStr "Additional rent:") line)) }
  else e

/-- Embeds `desc_lines = description.strip().split("\n")` followed by the
for-loop (`notifier.py` lines 299-313). The code splits the description
on NEWLINES, not on pipes. -/
def extractExtras (description : Str) : Extras :=
  ((splitOnChar '\n' (pyStrip description)).foldl updateExtra {})

/-- The emitted extra line for `price:` (`notifier.py` line 371). -/
def priceLine (p : Str) : Str :=
  pyStr "💵 " ++ boldTelegramMd (pyStr "Price") ++ pyStr ": " ++ p ++ pyStr "\n"

/-- The emitted extra line for `deposit:` (`notifier.py` line 373). -/
def depositLine (p : Str) : Str :=
  pyStr "🔐 " ++ boldTelegramMd (pyStr "Deposit") ++ pyStr ": " ++ p ++ pyStr "\n"

/-- The emitted extra line for `animals_allowed:` (`notifier.py` line 375). -/
def animalsLine (p : Str) : Str :=
  pyStr "🐾 " ++ boldTelegramMd (pyStr "Animals") ++ pyStr ": " ++ p ++ pyStr "\n"

/-- The emitted extra line for `rent:` (`notifier.py` line 377). -/
def rentLine (p : Str) : Str :=
  pyStr "💳 " ++ boldTelegramMd (pyStr "Rent") ++ pyStr ": " ++ p ++ pyStr "\n"

/-- The optional-extras emission (`notifier.py` lines 370-377): walrus
assignments with truthiness tests, and the deposit line suppressed when it
equals `"Deposit: 0"` exactly. -/
def extraLines (e : Extras) : List Str :=
  (match e.price_info with
   | some p => if p = [] then [] else [priceLine p]
   | none => [])
  ++ (match e.deposit_info with
      | some p => if p = [] ∨ p = pyStr "Deposit: 0" then [] else [depositLine p]
      | none => [])
  ++ (match e.animals_info with
      | some p => if p = [] then [] else [animalsLine p]
      | none => [])
  ++ (match e.rent_info with
      | some p => if p = [] then [] else [rentLine p]
      | none => [])

-- ---------------------------------------------------------------------
-- Per-key view of the extras parsing, and its agreement with the fold
-- ---------------------------------------------------------------------

/-- What a single description line contributes to the `price` extra. -/
def priceUpd (l : Str) : Option Str :=
  if (pyStr "price:").isPrefixOf l then
    some (pyStrip (pyReplace (pyStr "price:") (pyStr "Price:") l))
  else none

/-- What a single description line contributes to the `deposit` extra. -/
def depositUpd (l : Str) : Option Str :=
  if (pyStr "deposit:").isPrefixOf l then
    some (pyStrip (pyReplace (pyStr "deposit:") (pyStr "Deposit:") l))
  else none

/-- What a single description line contributes to the `animals` extra:
only values that strip to exactly `true` or `false` contribute. -/
def animalsUpd (l : Str) : Option Str :=
  if (pyStr "animals_allowed:").isPrefixOf l then
    if pyStrip (pyReplace (pyStr "animals_allowed:") [] l) = pyStr "true" then
      some (pyStr "Pets: Allowed")
    else if pyStrip (pyReplace (pyStr "animals_allowed:") [] l) = pyStr "false" then
      some (pyStr "Pets: Not allowed")
    else none
  else none

/-- What a single description line contributes to the `rent` extra. -/
def rentUpd (l : Str) : Option Str :=
  if (pyStr "rent:").isPrefixOf l then
    some (pyStrip (pyReplace (pyStr "rent:") (pyStr "Additional rent:") l))
  else none

/-- Reference reading of the parsing, following the amended claim's
words: the description is split on NEWLINES, and for each key the LAST
contributing line wins. -/
def specExtras (description : Str) : Extras :=
  let lines := splitOnChar '\n' (pyStrip description)
  { price_info := lines.reverse.findSome? priceUpd
    deposit_info := lines.reverse.findSome? depositUpd
    animals_info := lines.reverse.findSome? animalsUpd
    rent_info := lines.reverse.findSome? rentUpd }

/-- The original claim's reading of the parsing: the description split on
PIPES, with the same per-key line mappings. -/
def pipeExtras (description : Str) : Extras :=
  let lines := splitOnChar '|' (pyStrip description)
  { price_info := lines.reverse.findSome? priceUpd
    deposit_info := lines.reverse.findSome? depositUpd
    animals_info := lines.reverse.findSome? animalsUpd
    rent_info := lines.reverse.findSome? rentUpd }

/-- An item record (`notifier.py` reads items through a dual
mapping/attribute access pattern; both a missing field and a `None` value
surface as the access default, so each field is one `Option`). -/
structure Item where
  title : Option Str := none
  price : Option Str := none
  location : Option Str := none
  description : Option Str := none
  created_at : Option Str := none
  item_url : Option Str := none
  image_url : Option Str := none
  source : Option Str := none
deriving DecidableEq, Repr

/-- Python truthiness of an optional string (`None` and `""` are falsy). -/
def pyTruthy (o : Option Str) : Bool :=
  match o with
  | none => false
  | some s => !s.isEmpty

/-- Decimal rendering of a natural number, as Python `str(n)`. -/
def natToStr (n : ℕ) : Str := (toString n).toList

/-- Zero-padded two-digit rendering (`strftime` `%d`/`%m`/`%H`/`%M`). -/
def pad2 (n : ℕ) : Str := if n < 10 then '0' :: natToStr n else natToStr n

/-- Zero-padded four-digit rendering (`strftime` `%Y`). -/
def pad4 (n : ℕ) : Str :=
  List.replicate (4 - (natToStr n).length) '0' ++ natToStr n

/-- The datetime fields consumed by the two `strftime` calls. -/
structure PyDateTime where
  year : ℕ
  month : ℕ
  day : ℕ
  hour : ℕ
  minute : ℕ
deriving DecidableEq, Repr

/-- Two decimal digits, or `none`. -/
def digits2 (c1 c2 : Char) : Option ℕ :=
  if c1.isDigit ∧ c2.isDigit then
    some ((c1.toNat - 48) * 10 + (c2.toNat - 48))
  else none

/-- Four decimal digits, or `none`. -/
def digits4 (c1 c2 c3 c4 : Char) : Option ℕ :=
  match digits2 c1 c2, digits2 c3 c4 with
  | some hi, some lo => some (hi * 100 + lo)
  | _, _ => none

/-- Crude plausibility check of the tail after `HH:MM` (seconds,
fractional seconds, or a timezone offset). -/
def isoTailOk : Str → Bool
  | [] => true
  | ':' :: s1 :: s2 :: _ => s1.isDigit && s2.isDigit
  | '+' :: _ => true
  | '-' :: _ => true
  | _ => false

/-- Modelled from the Python standard library `datetime.fromisoformat`
(the repository calls it on `created_at` after replacing `Z` with
`+00:00`): accepts `YYYY-MM-DD`, optionally followed by one separator
character and `HH:MM` plus an optional tail; yields the fields the two
`strftime` calls consume. Range validation is approximated (day bound 31
for every month); none of the verified claims depends on this parser's
output. -/
def pyFromIsoformat (s : Str) : Option PyDateTime :=
  match s with
  | [y1, y2, y3, y4, '-', m1, m2, '-', d1, d2] =>
    match digits4 y1 y2 y3 y4, digits2 m1 m2, digits2 d1 d2 with
    | some y, some mo, some d =>
      if 1 ≤ mo ∧ mo ≤ 12 ∧ 1 ≤ d ∧ d ≤ 31 then some ⟨y, mo, d, 0, 0⟩ else none
    | _, _, _ => none
  | y1 :: y2 :: y3 :: y4 :: '-' :: m1 :: m2 :: '-' :: d1 :: d2 :: _ :: h1 :: h2 :: ':' :: mi1 :: mi2 :: rest =>
    match digits4 y1 y2 y3 y4, digits2 m1 m2, digits2 d1 d2, digits2 h1 h2, digits2 mi1 mi2 with
    | some y, some mo, some d, some h, some mi =>
      if 1 ≤ mo ∧ mo ≤ 12 ∧ 1 ≤ d ∧ d ≤ 31 ∧ h ≤ 23 ∧ mi ≤ 59 ∧ isoTailOk rest then
        some ⟨y, mo, d, h, mi⟩
      else none
    | _, _, _, _, _ => none
  | _ => none

/-- Renders `dt.strftime("%d.%m.%Y")`. -/
def fmtDatePart (dt : PyDateTime) : Str :=
  pad2 dt.day ++ pyStr "." ++ pad2 dt.month ++ pyStr "." ++ pad4 dt.year

/-- Renders `dt.strftime("%H:%M")`. -/
def fmtTimePart (dt : PyDateTime) : Str :=
  pad2 dt.hour ++ pyStr ":" ++ pad2 dt.minute

/-- The `created_at` formatting of `_format_item_text` (`notifier.py`
lines 351-361): truthy and not `"N/A"` means parse ISO (tolerating a
trailing `Z` via replacement) and emit escaped date, escaped dash, bolded
time; parse failure falls back to the raw escaped string. -/
def formatCreatedAt (created_at : Str) : Str :=
  if created_at ≠ [] ∧ created_at ≠ pyStr "N/A" then
    match pyFromIsoformat (pyReplace (pyStr "Z") (pyStr "+00:00") created_at) with
    | some dt =>
      escapeMarkdownV2 (fmtDatePart dt) ++ pyStr " "
        ++ escapeMarkdownV2 (pyStr "-") ++ pyStr " "
        ++ boldTelegramMd (fmtTimePart dt)
    | none => escapeMarkdownV2 created_at
  else pyStr "N/A"

/-- Embeds `_format_item_text` (`notifier.py` lines 291-382): the fixed-order
message body with escaped fields, the optional extra lines, and the
trailing link line. -/
def formatItemText (item : Item) : Str :=
  let description := item.description.getD []
  let extra := extractExtras description
  let title := item.title.getD (pyStr "No title")
  let price := item.price.getD (pyStr "N/A")
  let location := item.location.getD (pyStr "N/A")
  let created_at := item.created_at.getD (pyStr "N/A")
  let item_url := item.item_url.getD (pyStr "#")
  let title_bold := boldTelegramMd title
  let price_escaped := escapeMarkdownV2 price
  let location_escaped := escapeMarkdownV2 location
  let date_formatted := formatCreatedAt created_at
  let text :=
    pyStr "📦 " ++ title_bold ++ pyStr "\n\n"
      ++ pyStr "💰 " ++ boldTelegramMd (pyStr "Price") ++ pyStr ": " ++ price_escaped ++ pyStr "\n"
      ++ pyStr "📍 " ++ boldTelegramMd (pyStr "Location") ++ pyStr ": " ++ location_escaped ++ pyStr "\n"
      ++ pyStr "🕒 " ++ boldTelegramMd (pyStr "Posted") ++ pyStr ": " ++ date_formatted ++ pyStr "\n"
  let text := text ++ (extraLines extra).flatten
  let platform_name :=
    escapeMarkdownV2 (if pyTruthy item.source then item.source.getD [] else pyStr "Unknown source")
  let item_url_escaped := escapeMarkdownV2 item_url
  text ++ pyStr "🔗 [View on " ++ platform_name ++ pyStr "](" ++ item_url_escaped ++ pyStr ")"

-- ---------------------------------------------------------------------
-- `_resize_image_if_needed` (`notifier.py` lines 206-261)
-- ---------------------------------------------------------------------

/-- A decoded image's dimensions (`img.size`). Byte-level decoding is
abstracted: a caller passes `none` for bytes that do not decode. -/
structure DecodedImage where
  width : ℕ
  height : ℕ
deriving DecidableEq, Repr

/-- What `_resize_image_if_needed` does to a decodable input: either the
original bytes are returned unchanged, or the image is re-encoded with
the recorded dimensions, color mode and JPEG quality. -/
inductive ResizeOutcome where
  | original
  | reencoded (newWidth newHeight : ℕ) (mode : Str) (quality : ℕ)
deriving DecidableEq, Repr

/-- Embeds `_resize_image_if_needed` (`notifier.py` lines 206-261). Dimension
checks and the new-size computation are taken verbatim; `int(...)` on the
nonnegative Python floats is `Nat.floor`, and real arithmetic is modelled
exactly over `ℚ`. A zero height would raise `ZeroDivisionError`, caught
by the enclosing `except` into `None`. The pixel/byte content of the
re-encoded JPEG is abstracted; the outcome records the computed
dimensions, the `RGB` conversion and the quality-85 save. -/
def resizeImageIfNeeded (decoded : Option DecodedImage) : Option ResizeOutcome :=
  match decoded with
  | none => none
  | some img =>
    if img.width + img.height ≤ 10000 ∧ img.width ≤ 10000 ∧ img.height ≤ 10000 then
      some .original
    else if img.height = 0 then none
    else
      let ratio : ℚ := (img.width : ℚ) / (img.height : ℚ)
      let new_height : ℕ := ⌊(9500 : ℚ) / (ratio + 1)⌋₊
      let new_width : ℕ := ⌊(new_height : ℚ) * ratio⌋₊
      some (.reencoded new_width new_height (pyStr "RGB") 85)

/-- Environment overrides visible to the pydantic `BaseSettings` class
for the two fields of interest; `none` means not configured. -/
structure SettingsEnv where
  dbRemoveOldItemsDataNDays : Option ℕ := none
  imageCacheTtlDays : Option ℕ := none
deriving DecidableEq, Repr

/-- Embeds `core/config.py` line 25: class-body default of the data-retention
window. -/
def defaultRemoveOldDays : ℕ := 7

/-- Embeds `core/config.py` line 27: the class-body default of
`IMAGE_CACHE_TTL_DAYS` is evaluated ONCE at class-definition time from
the class-body default above; a configured retention override never
enters this expression. -/
def defaultImageCacheTtlDays : ℕ := defaultRemoveOldDays + 1

/-- The resolved settings record. -/
structure Settings where
  DB_REMOVE_OLD_ITEMS_DATA_N_DAYS : ℕ
  IMAGE_CACHE_TTL_DAYS : ℕ
deriving DecidableEq, Repr

/-- Pydantic field resolution: a configured value wins, otherwise the
class-body default applies. -/
def settingsOf (env : SettingsEnv) : Settings :=
  { DB_REMOVE_OLD_ITEMS_DATA_N_DAYS :=
      env.dbRemoveOldItemsDataNDays.getD defaultRemoveOldDays
    IMAGE_CACHE_TTL_DAYS := env.imageCacheTtlDays.getD defaultImageCacheTtlDays }

/-- Embeds `Notifier.__init__` (`notifier.py` line 39):
`self._image_cache_ttl = settings.IMAGE_CACHE_TTL_DAYS * 86400`. -/
def notifierImageCacheTtl (s : Settings) : ℕ := s.IMAGE_CACHE_TTL_DAYS * 86400

-- ---------------------------------------------------------------------
-- The delivery engine `_send_item_with_image` (`notifier.py` 106-173)
-- ---------------------------------------------------------------------

/-- Exception kinds distinguished by the engine's handlers:
`TelegramBadRequest` (the only class caught at layer 2) versus any other
exception. -/
inductive ErrKind where
  | badRequest
  | other
deriving DecidableEq, Repr

/-- Outcome of one platform send attempt: success carries the
platform-assigned `file_id` of the sent photo. -/
inductive SendOutcome where
  | ok (fileId : Str)
  | err (k : ErrKind)
deriving DecidableEq, Repr

/-- The nondeterministic environment of one `_send_item_with_image` call:
the outcome each layer's I/O would have if attempted. `fetched` is the
return of `_fetch_image_with_headers`, which catches every internal
failure (timeout, non-200, non-image content type, undecodable or
unresizable bytes) into `None`. -/
structure DeliverEnv where
  cachedSend : SendOutcome
  urlSend : SendOutcome
  fetched : Option (List ℕ)
  fileSend : SendOutcome
  msgSend : Option ErrKind
deriving DecidableEq, Repr

/-- The `photo` argument of a `send_photo` call: a cached handle, a raw
URL, or uploaded bytes (`BufferedInputFile`). -/
inductive PhotoRef where
  | handle (fileId : Str)
  | url (u : Str)
  | file (bytes : List ℕ)
deriving DecidableEq, Repr

/-- One observable I/O action of the pipeline. Send events record the
attempt (made even when the platform then rejects it). -/
inductive Event where
  | cacheGet (key : Str) (result : Option Str)
  | cacheSet (key value : Str) (ttlSeconds : ℕ)
  | cacheDel (key : Str)
  | sendPhoto (chatId : ℤ) (photo : PhotoRef) (caption : Option Str)
  | sendMessage (chatId : ℤ) (text : Str)
  | sleep (ms : ℕ)
  | updateLastGotItem (chatId : ℤ)
  | updateLastUpdated (taskId : ℕ)
  | logException
deriving DecidableEq, Repr

/-- The Redis string store, as an association list (TTL expiry is not
modelled; the TTL passed to each `set` is recorded in the event). -/
abbrev Cache := List (Str × Str)

def cacheLookup (c : Cache) (k : Str) : Option Str :=
  (c.find? (fun p => p.1 == k)).map (·.2)

def cacheStore (c : Cache) (k v : Str) : Cache :=
  (k, v) :: c.filter (fun p => p.1 != k)

def cacheRemove (c : Cache) (k : Str) : Cache :=
  c.filter (fun p => p.1 != k)

/-- The cache key `f"photo:{image_url}"`. -/
def photoKey (url : Str) : Str := pyStr "photo:" ++ url

/-- Result of one `_send_item_with_image` call: the cache afterwards, the
I/O events in order, and the exception the call propagates, if any. -/
structure DeliverResult where
  cache : Cache
  events : List Event
  raised : Option ErrKind
deriving DecidableEq, Repr

/-- Layer 4 (`notifier.py` lines 169-173): the text-only fallback. The
`send_message` call is not wrapped in any handler, so its failure
propagates. -/
def sendTextFallback (env : DeliverEnv) (chatId : ℤ) (text : Str)
    (cache : Cache) (events : List Event) : DeliverResult :=
  { cache := cache
    events := events ++ [.sendMessage chatId text]
    raised := env.msgSend }

/-- Layer 3 (`notifier.py` lines 150-167): if the fetch produced bytes,
attempt the upload; cache the new handle on success; ANY send exception
is caught and falls through to layer 4. No bytes means layer 4 directly. -/
def sendViaFetched (env : DeliverEnv) (ttl : ℕ) (chatId : ℤ) (url text : Str)
    (cache : Cache) (events : List Event) : DeliverResult :=
  match env.fetched with
  | none => sendTextFallback env chatId text cache events
  | some bytes =>
    let events := events ++ [.sendPhoto chatId (.file bytes) (some text)]
    match env.fileSend with
    | .ok fid =>
      { cache := cacheStore cache (photoKey url) fid
        events := events ++ [.cacheSet (photoKey url) fid ttl]
        raised := none }
    | .err _ => sendTextFallback env chatId text cache events

/-- Layer 2 (`notifier.py` lines 133-148): the direct-URL send. On
success the response's `file_id` is stored with the configured TTL. ONLY
`TelegramBadRequest` is caught (falling through to layer 3); any other
exception propagates out of the whole call. -/
def sendViaUrl (env : DeliverEnv) (ttl : ℕ) (chatId : ℤ) (url text : Str)
    (cache : Cache) (events : List Event) : DeliverResult :=
  let events := events ++ [.sendPhoto chatId (.url url) (some text)]
  match env.urlSend with
  | .ok fid =>
    { cache := cacheStore cache (photoKey url) fid
      events := events ++ [.cacheSet (photoKey url) fid ttl]
      raised := none }
  | .err .badRequest => sendViaFetched env ttl chatId url text cache events
  | .err .other => { cache := cache, events := events, raised := some .other }

/-- Embeds `_send_item_with_image` (`notifier.py` lines 106-173). Layer 1: a
truthy cached `file_id` is tried first; success returns; ANY exception
deletes the cache entry and falls through to layer 2. A falsy (absent or
empty) cached value skips straight to layer 2. -/
def sendItemWithImage (env : DeliverEnv) (ttl : ℕ) (chatId : ℤ)
    (url text : Str) (cache : Cache) : DeliverResult :=
  match cacheLookup cache (photoKey url) with
  | some fid =>
    if fid.isEmpty then
      sendViaUrl env ttl chatId url text cache [.cacheGet (photoKey url) (some fid)]
    else
      let events := [.cacheGet (photoKey url) (some fid),
                     .sendPhoto chatId (.handle fid) (some text)]
      match env.cachedSend with
      | .ok _ => { cache := cache, events := events, raised := none }
      | .err _ =>
        sendViaUrl env ttl chatId url text (cacheRemove cache (photoKey url))
          (events ++ [.cacheDel (photoKey url)])
  | none => sendViaUrl env ttl chatId url text cache [.cacheGet (photoKey url) none]

-- ---------------------------------------------------------------------
-- The reconciliation loop (`notifier.py` lines 44-104)
-- ---------------------------------------------------------------------

/-- A monitoring task as read by the loop (`task.id`, `task.chat_id`,
`task.name`); named `MonitoringTask` as in the specification, since Lean
already has a `Task` type. -/
structure MonitoringTask where
  id : ℕ
  chat_id : ℤ
  name : Str
deriving DecidableEq, Repr

/-- The nondeterministic environment of one reconciliation run: outcomes
of the service-port calls and of each per-item delivery's I/O. -/
structure CycleEnv where
  pendingTasks : Except ErrKind (List MonitoringTask)
  itemsToSend : MonitoringTask → Except ErrKind (List Item)
  deliverEnv : MonitoringTask → Item → DeliverEnv
  summarySend : MonitoringTask → Option ErrKind
  lastGotItemOutcome : MonitoringTask → Option ErrKind
  lastUpdatedOutcome : MonitoringTask → Option ErrKind

/-- Renders `ITEMS_FOUND_CAPTION.format(count=..., monitoring=...)`
(`bot/responses.py` line 51). -/
def itemsFoundCaption (count : ℕ) (monitoring : Str) : Str :=
  pyStr "I have found " ++ natToStr count ++ pyStr " items for monitoring \x27"
    ++ monitoring ++ pyStr "\x27, maybe one of them is what you\x27re looking for"

/-- The fixed decorative image of the summary notification
(`notifier.py` line 79). -/
def summaryPhotoUrl : Str :=
  pyStr "https://tse4.mm.bing.net/th?id=OIG2.fso8nlFWoq9hafRkva2e&pid=ImgGn"

/-- The body of the per-item for-loop (`notifier.py` lines 85-99),
without the trailing sleep: format the text, read `image_url` through the
dual access pattern, and send with image handling when the URL is truthy,
as a plain text message otherwise. -/
def processItem (env : CycleEnv) (ttl : ℕ) (task : MonitoringTask) (item : Item)
    (cache : Cache) : DeliverResult :=
  let text := formatItemText item
  match item.image_url with
  | some u =>
    if u.isEmpty then
      { cache := cache
        events := [.sendMessage task.chat_id text]
        raised := (env.deliverEnv task item).msgSend }
    else
      sendItemWithImage (env.deliverEnv task item) ttl task.chat_id u text cache
  | none =>
    { cache := cache
      events := [.sendMessage task.chat_id text]
      raised := (env.deliverEnv task item).msgSend }

/-- The for-loop over the (already reversed) items (`notifier.py` lines
85-100): a 0.5 s sleep after each item; an exception aborts the loop at
that item and propagates. -/
def itemsLoop (env : CycleEnv) (ttl : ℕ) (task : MonitoringTask) :
    List Item → Cache → Cache × List Event × Option ErrKind
  | [], cache => (cache, [], none)
  | it :: rest, cache =>
    let r := processItem env ttl task it cache
    match r.raised with
    | some e => (r.cache, r.events, some e)
    | none =>
      let rec2 := itemsLoop env ttl task rest r.cache
      (rec2.1, r.events ++ Event.sleep 500 :: rec2.2.1, rec2.2.2)

/-- Handling of one task inside `_check_and_send_items` (`notifier.py`
lines 63-104): fetch items; empty list means only `update_last_updated`;
otherwise the summary photo, the items in reverse order, then
`update_last_got_item(task.chat_id)` and `update_last_updated(task)`.
None of these awaits is guarded, so the first exception propagates. -/
def processTask (env : CycleEnv) (ttl : ℕ) (task : MonitoringTask) (cache : Cache) :
    Cache × List Event × Option ErrKind :=
  match env.itemsToSend task with
  | .error e => (cache, [], some e)
  | .ok items =>
    if items.isEmpty then
      (cache, [.updateLastUpdated task.id], env.lastUpdatedOutcome task)
    else
      let summaryEv := Event.sendPhoto task.chat_id (.url summaryPhotoUrl)
        (some (itemsFoundCaption items.length task.name))
      match env.summarySend task with
      | some e => (cache, [summaryEv], some e)
      | none =>
        let res := itemsLoop env ttl task items.reverse cache
        match res.2.2 with
        | some e => (res.1, summaryEv :: res.2.1, some e)
        | none =>
          match env.lastGotItemOutcome task with
          | some e => (res.1, summaryEv :: res.2.1 ++ [.updateLastGotItem task.chat_id], some e)
          | none =>
            (res.1, summaryEv :: res.2.1
                      ++ [.updateLastGotItem task.chat_id, .updateLastUpdated task.id],
             env.lastUpdatedOutcome task)

/-- The for-loop over pending tasks: there is NO per-task handler, so the
first exception aborts the remainder of the cycle. -/
def tasksLoop (env : CycleEnv) (ttl : ℕ) :
    List MonitoringTask → Cache → Cache × List Event × Option ErrKind
  | [], cache => (cache, [], none)
  | t :: rest, cache =>
    let r := processTask env ttl t cache
    match r.2.2 with
    | some e => (r.1, r.2.1, some e)
    | none =>
      let rec2 := tasksLoop env ttl rest r.1
      (rec2.1, r.2.1 ++ rec2.2.1, rec2.2.2)

/-- Embeds `_check_and_send_items` (`notifier.py` lines 59-104): one cycle. -/
def checkAndSendItems (env : CycleEnv) (ttl : ℕ) (cache : Cache) :
    Cache × List Event × Option ErrKind :=
  match env.pendingTasks with
  | .error e => (cache, [], some e)
  | .ok tasks => tasksLoop env ttl tasks cache

/-- Embeds `run_periodically` (`notifier.py` lines 44-54), unrolled to `n`
iterations of the infinite loop: each cycle's exception is caught and
logged, then the loop sleeps `interval_s` seconds and repeats. -/
def runPeriodically (env : CycleEnv) (ttl : ℕ) (intervalS : ℕ) :
    ℕ → Cache → Cache × List Event
  | 0, cache => (cache, [])
  | n + 1, cache =>
    let r := checkAndSendItems env ttl cache
    let evs1 := r.2.1 ++ (match r.2.2 with | some _ => [Event.logException] | none => [])
    let rec2 := runPeriodically env ttl intervalS n r.1
    (rec2.1, evs1 ++ Event.sleep (intervalS * 1000) :: rec2.2)

-- ---------------------------------------------------------------------
-- Projections over event traces
-- ---------------------------------------------------------------------

/-- The texts a trace attempts to put in front of the user: captions of
photo sends and bodies of text sends, in order. -/
def deliveredTexts (evs : List Event) : List Str :=
  evs.filterMap fun e =>
    match e with
    | .sendMessage _ t => some t
    | .sendPhoto _ _ c => c
    | _ => none

/-- Number of delivery-layer attempts (photo or message sends) in a
trace. -/
def layerSends (evs : List Event) : ℕ :=
  evs.countP fun e =>
    match e with
    | .sendPhoto _ _ _ => true
    | .sendMessage _ _ => true
    | _ => false

/-- Shape invariant of the events `_send_item_with_image` can emit: cache
traffic (every `set` carrying the configured TTL) and sends — never
sleeps, bookkeeping updates or loop-level logging. -/
def layerEvent (ttl : ℕ) (e : Event) : Bool :=
  match e with
  | .cacheGet _ _ => true
  | .cacheSet _ _ t => t == ttl
  | .cacheDel _ => true
  | .sendPhoto _ _ _ => true
  | .sendMessage _ _ => true
  | .sleep _ => false
  | .updateLastGotItem _ => false
  | .updateLastUpdated _ => false
  | .logException => false

/-- A delivery environment in which the direct-URL send fails with a
non-`TelegramBadRequest` platform error (e.g. a flood-limit error). -/
def floodEnv : DeliverEnv :=
  { cachedSend := .err .other
    urlSend := .err .other
    fetched := none
    fileSend := .err .other
    msgSend := none }

/-- An environment exercising C1's worst case: stale cached handle,
direct-URL rejected as a bad request, fetch yields nothing, text send
succeeds. -/
def exhaustEnv : DeliverEnv :=
  { cachedSend := .err .other
    urlSend := .err .badRequest
    fetched := none
    fileSend := .err .other
    msgSend := none }

/-- An environment in which the cached handle is rejected, the direct-URL
retry is also rejected (bad request) and the fetch yields nothing. -/
def rejectEnv : DeliverEnv :=
  { cachedSend := .err .badRequest
    urlSend := .err .badRequest
    fetched := none
    fileSend := .err .other
    msgSend := none }

/-- A first delivery whose direct-URL send succeeds, then a second whose
cached-handle send is rejected but whose direct-URL retry succeeds. -/
def urlOkEnv : DeliverEnv :=
  { cachedSend := .err .other
    urlSend := .ok (pyStr "F1")
    fetched := none
    fileSend := .err .other
    msgSend := none }

def retryOkEnv : DeliverEnv :=
  { cachedSend := .err .badRequest
    urlSend := .ok (pyStr "F2")
    fetched := none
    fileSend := .err .other
    msgSend := none }

/-- A cycle environment whose first task's item fetch raises while the
second task (with no new items) would be processed normally. -/
def svcFailEnv : CycleEnv :=
  { pendingTasks := .ok [⟨1, 10, pyStr "a"⟩, ⟨2, 20, pyStr "b"⟩]
    itemsToSend := fun t => if t.id = 1 then .error .other else .ok []
    deliverEnv := fun _ _ => exhaustEnv
    summarySend := fun _ => none
    lastGotItemOutcome := fun _ => none
    lastUpdatedOutcome := fun _ => none }

/-- A configuration that sets the retention window to 30 days and leaves
the TTL unconfigured. -/
def retentionOnlyEnv : SettingsEnv :=
  { dbRemoveOldItemsDataNDays := some 30, imageCacheTtlDays := none }

/-- The empty configuration: both fields at their class-body defaults. -/
def noConfigEnv : SettingsEnv :=
  { dbRemoveOldItemsDataNDays := none, imageCacheTtlDays := none }

/-- An item carrying an empty-string image URL. -/
def noImageItem : Item :=
  { title := some (pyStr "T"), image_url := some [] }

/-- A cycle environment with no pending work, used only to instantiate
loop-level theorems. -/
def idleCycleEnv : CycleEnv :=
  { pendingTasks := .ok []
    itemsToSend := fun _ => .ok []
    deliverEnv := fun _ _ => exhaustEnv
    summarySend := fun _ => none
    lastGotItemOutcome := fun _ => none
    lastUpdatedOutcome := fun _ => none }

/-- A per-item delivery environment in which whichever of the first two
layers runs succeeds, and a plain text send succeeds. -/
def goodDeliver (d : DeliverEnv) : Prop :=
  (∃ f, d.cachedSend = SendOutcome.ok f)
  ∧ (∃ f, d.urlSend = SendOutcome.ok f)
  ∧ d.msgSend = none

/-- The fixed scenario of the claim: items fetched newest-first. -/
def item1 : Item := { title := some (pyStr "A"), image_url := none }

def item2 : Item := { title := some (pyStr "B"), image_url := some (pyStr "IMG2") }

def item3 : Item := { title := some (pyStr "C"), image_url := some (pyStr "IMG3") }

def sceneItems : List Item := [item3, item2, item1]

def sceneTask : MonitoringTask := ⟨7, 1, pyStr "n"⟩

/-- A delivery environment in which every send succeeds. -/
def goodEnvD : DeliverEnv :=
  { cachedSend := .ok (pyStr "F")
    urlSend := .ok (pyStr "F")
    fetched := none
    fileSend := .ok (pyStr "F")
    msgSend := none }

def sceneEnv : CycleEnv :=
  { pendingTasks := .ok [sceneTask]
    itemsToSend := fun _ => .ok sceneItems
    deliverEnv := fun _ _ => goodEnvD
    summarySend := fun _ => none
    lastGotItemOutcome := fun _ => none
    lastUpdatedOutcome := fun _ => none }

-- =====================================================================
-- Theorems
-- =====================================================================

theorem replace1_append (c : Char) (s t : Str) :
    replace1 c (s ++ t) = replace1 c s ++ replace1 c t := by
  simp [replace1]

theorem foldl_replace1_append (L : Str) (s t : Str) :
    L.foldl (fun u c => replace1 c u) (s ++ t) =
      L.foldl (fun u c => replace1 c u) s ++ L.foldl (fun u c => replace1 c u) t := by
  induction L generalizing s t with
  | nil => rfl
  | cons a L ih => simp only [List.foldl_cons, replace1_append, ih]

theorem replace1_single_ne (c a : Char) (h : a ≠ c) : replace1 c [a] = [a] := by
  simp [replace1, h]

theorem foldl_replace1_single_not_mem (L : Str) (a : Char) (h : a ∉ L) :
    L.foldl (fun u c => replace1 c u) [a] = [a] := by
  induction L with
  | nil => rfl
  | cons b L ih =>
    have hb : a ≠ b := fun hab => h (hab ▸ List.mem_cons_self b L)
    have hL : a ∉ L := fun hm => h (List.mem_cons_of_mem b hm)
    simp only [List.foldl_cons, replace1_single_ne b a hb, ih hL]

theorem foldl_replace1_escaped (L : Str) (a : Char) (ha : a ∉ L)
    (hb : '\\' ∉ L) :
    L.foldl (fun u c => replace1 c u) ['\\', a] = ['\\', a] := by
  induction L with
  | nil => rfl
  | cons b L ih =>
    have h1 : '\\' ≠ b := fun h => hb (h ▸ List.mem_cons_self b L)
    have h2 : a ≠ b := fun h => ha (h ▸ List.mem_cons_self b L)
    have hL1 : a ∉ L := fun hm => ha (List.mem_cons_of_mem b hm)
    have hL2 : '\\' ∉ L := fun hm => hb (List.mem_cons_of_mem b hm)
    have : replace1 b ['\\', a] = ['\\', a] := by
      simp [replace1, h1, h2]
    simp only [List.foldl_cons, this, ih hL1 hL2]

theorem foldl_replace1_single_mem (L : Str) (a : Char) (h : a ∈ L)
    (hnd : L.Nodup) (hb : '\\' ∉ L) :
    L.foldl (fun u c => replace1 c u) [a] = ['\\', a] := by
  induction L with
  | nil => cases h
  | cons b L ih =>
    have hL2 : '\\' ∉ L := fun hm => hb (List.mem_cons_of_mem b hm)
    rcases List.mem_cons.mp h with hab | hmem
    · subst hab
      have hnotL : a ∉ L := (List.nodup_cons.mp hnd).1
      have : replace1 a [a] = ['\\', a] := by simp [replace1]
      simp only [List.foldl_cons, this]
      exact foldl_replace1_escaped L a hnotL hL2
    · have hba : a ≠ b := by
        rintro rfl
        exact (List.nodup_cons.mp hnd).1 hmem
      simp only [List.foldl_cons, replace1_single_ne b a hba]
      exact ih hmem (List.nodup_cons.mp hnd).2 hL2

theorem foldl_replace1_eq_bind (s : Str) :
    escapeChars.foldl (fun u c => replace1 c u) s =
      s.flatMap (fun c => if c ∈ escapeChars then ['\\', c] else [c]) := by
  induction s with
  | nil =>
    have : ∀ L : Str, L.foldl (fun u c => replace1 c u) ([] : Str) = [] := by
      intro L
      induction L with
      | nil => rfl
      | cons b L ih => simpa [replace1] using ih
    simp [this]
  | cons a s ih =>
    have hsplit : (a :: s : Str) = [a] ++ s := rfl
    rw [hsplit, foldl_replace1_append, ih]
    by_cases hmem : a ∈ escapeChars
    · rw [foldl_replace1_single_mem escapeChars a hmem (by decide) (by decide)]
      simp [hmem]
    · rw [foldl_replace1_single_not_mem escapeChars a hmem]
      simp [hmem]

theorem escapeMarkdownV2_eq_bind (s : Str) :
    escapeMarkdownV2 s =
      s.flatMap (fun c => if c ∈ escapeChars then ['\\', c] else [c]) := by
  by_cases h : s = []
  · subst h; rfl
  · rw [escapeMarkdownV2, if_neg h, foldl_replace1_eq_bind]

/-- C5: for every string built from the reserved character set, `escape`
prefixes each occurrence of each reserved character with exactly one
backslash; `bold s = "*" ++ escape s ++ "*"` for nonempty `s`;
`bold "" = ""`; and `escape` returns empty input unchanged. -/
theorem escape_and_bold_spec (s : Str) (h : ∀ c ∈ s, c ∈ escapeChars) :
    escapeMarkdownV2 s = s.flatMap (fun c => ['\\', c])
    ∧ (s ≠ [] → boldTelegramMd s = '*' :: (escapeMarkdownV2 s ++ ['*']))
    ∧ boldTelegramMd [] = []
    ∧ escapeMarkdownV2 [] = [] := by
  refine ⟨?_, ?_, rfl, rfl⟩
  · rw [escapeMarkdownV2_eq_bind]
    exact List.flatMap_congr fun c hc => by rw [if_pos (h c hc)]
  · intro hne
    rw [boldTelegramMd, if_neg hne]

theorem escape_and_bold_spec_witness :
    (∀ c ∈ pyStr "*_.", c ∈ escapeChars)
    ∧ (escapeMarkdownV2 (pyStr "*_.") = (pyStr "*_.").flatMap (fun c => ['\\', c])
       ∧ (pyStr "*_." ≠ [] →
          boldTelegramMd (pyStr "*_.") = '*' :: (escapeMarkdownV2 (pyStr "*_.") ++ ['*']))
       ∧ boldTelegramMd [] = []
       ∧ escapeMarkdownV2 [] = []) :=
  ⟨by decide, escape_and_bold_spec (pyStr "*_.") (by decide)⟩

-- ---------------------------------------------------------------------
-- Python string helpers used by `_format_item_text`
-- ---------------------------------------------------------------------

theorem isPrefixOf_head_clash {p q l : Str} (hp : p.isPrefixOf l = true)
    (hq : q.isPrefixOf l = true) (h : p.head? ≠ q.head?)
    (hpn : p ≠ []) (hqn : q ≠ []) : False := by
  match p, q, l with
  | [], _, _ => exact hpn rfl
  | _ :: _, [], _ => exact hqn rfl
  | a :: p, b :: q, [] => simp [List.isPrefixOf] at hp
  | a :: p, b :: q, c :: l =>
    simp [List.isPrefixOf] at hp hq
    exact h (by simp [hp.1, hq.1])

theorem updateExtra_eq (e : Extras) (l : Str) :
    updateExtra e l =
      { price_info := (priceUpd l).or e.price_info
        deposit_info := (depositUpd l).or e.deposit_info
        animals_info := (animalsUpd l).or e.animals_info
        rent_info := (rentUpd l).or e.rent_info } := by
  obtain ⟨p, d, a, r⟩ := e
  unfold updateExtra priceUpd depositUpd animalsUpd rentUpd
  by_cases h1 : (pyStr "price:").isPrefixOf l
  · have h2 : ¬((pyStr "deposit:").isPrefixOf l = true) := fun h2 =>
      isPrefixOf_head_clash h1 h2 (by decide) (by decide) (by decide)
    have h3 : ¬((pyStr "animals_allowed:").isPrefixOf l = true) := fun h3 =>
      isPrefixOf_head_clash h1 h3 (by decide) (by decide) (by decide)
    have h4 : ¬((pyStr "rent:").isPrefixOf l = true) := fun h4 =>
      isPrefixOf_head_clash h1 h4 (by decide) (by decide) (by decide)
    simp [h1, h2, h3, h4]
  · rw [if_neg h1, if_neg h1]
    by_cases h2 : (pyStr "deposit:").isPrefixOf l
    · have h3 : ¬((pyStr "animals_allowed:").isPrefixOf l = true) := fun h3 =>
        isPrefixOf_head_clash h2 h3 (by decide) (by decide) (by decide)
      have h4 : ¬((pyStr "rent:").isPrefixOf l = true) := fun h4 =>
        isPrefixOf_head_clash h2 h4 (by decide) (by decide) (by decide)
      simp [h2, h3, h4]
    · rw [if_neg h2, if_neg h2]
      by_cases h3 : (pyStr "animals_allowed:").isPrefixOf l
      · have h4 : ¬((pyStr "rent:").isPrefixOf l = true) := fun h4 =>
          isPrefixOf_head_clash h3 h4 (by decide) (by decide) (by decide)
        rw [if_pos h3, if_pos h3, if_neg h4]
        dsimp only
        split_ifs <;> simp
      · rw [if_neg h3, if_neg h3]
        by_cases h4 : (pyStr "rent:").isPrefixOf l
        · simp [h4]
        · simp [h4]

theorem updateExtra_price (e : Extras) (l : Str) :
    (updateExtra e l).price_info = (priceUpd l).or e.price_info := by
  rw [updateExtra_eq]

theorem updateExtra_deposit (e : Extras) (l : Str) :
    (updateExtra e l).deposit_info = (depositUpd l).or e.deposit_info := by
  rw [updateExtra_eq]

theorem updateExtra_animals (e : Extras) (l : Str) :
    (updateExtra e l).animals_info = (animalsUpd l).or e.animals_info := by
  rw [updateExtra_eq]

theorem updateExtra_rent (e : Extras) (l : Str) :
    (updateExtra e l).rent_info = (rentUpd l).or e.rent_info := by
  rw [updateExtra_eq]

theorem findSome?_singleton {α β : Type} (f : α → Option β) (a : α) :
    List.findSome? f [a] = f a := by
  cases h : f a <;> simp [List.findSome?_cons, List.findSome?_nil, h]

theorem foldl_updateExtra_field (F : Extras → Option Str) (U : Str → Option Str)
    (hstep : ∀ e l, F (updateExtra e l) = (U l).or (F e))
    (lines : List Str) (e : Extras) :
    F (lines.foldl updateExtra e) = (lines.reverse.findSome? U).or (F e) := by
  induction lines generalizing e with
  | nil => simp
  | cons l ls ih =>
    simp only [List.foldl_cons, List.reverse_cons]
    rw [ih, hstep, List.findSome?_append, findSome?_singleton, Option.or_assoc]

theorem extras_fields_eq (a b : Extras)
    (h1 : a.price_info = b.price_info) (h2 : a.deposit_info = b.deposit_info)
    (h3 : a.animals_info = b.animals_info) (h4 : a.rent_info = b.rent_info) :
    a = b := by
  cases a; cases b
  cases h1; cases h2; cases h3; cases h4
  rfl

/-- C6 (amended): for every item description, the code parses the
free-text description as NEWLINE-delimited (not pipe-delimited) key:value
lines, the last contributing line of each key wins, and the extra lines
are emitted with the stated mappings: `price:` to a Price line,
`deposit:` to a Deposit line omitted when it reads exactly `Deposit: 0`,
`animals_allowed:` true/false to Pets Allowed / Not allowed, and `rent:`
to an Additional-rent line. -/
theorem extras_newline_last_match (d : Str) :
    extractExtras d = specExtras d
    ∧ extraLines (extractExtras d) = extraLines (specExtras d) := by
  have hmain : extractExtras d = specExtras d := by
    apply extras_fields_eq
    · rw [extractExtras, foldl_updateExtra_field (·.price_info) priceUpd updateExtra_price]
      simp [specExtras]
    · rw [extractExtras, foldl_updateExtra_field (·.deposit_info) depositUpd updateExtra_deposit]
      simp [specExtras]
    · rw [extractExtras, foldl_updateExtra_field (·.animals_info) animalsUpd updateExtra_animals]
      simp [specExtras]
    · rw [extractExtras, foldl_updateExtra_field (·.rent_info) rentUpd updateExtra_rent]
      simp [specExtras]
  exact ⟨hmain, by rw [hmain]⟩

/-- Refutes C6 as stated: on the description `price: 10|rent: 5` the
pipe-delimited reading would emit a Price line and an Additional-rent
line, but the code (which splits on newlines) emits a single Price line
carrying the whole text; the parsing is not pipe-delimited. -/
theorem extras_pipe_counterexample :
    extraLines (extractExtras (pyStr "price: 10|rent: 5")) ≠
      extraLines (pipeExtras (pyStr "price: 10|rent: 5")) := by
  decide

-- ---------------------------------------------------------------------
-- Items and `_format_item_text` (`notifier.py` lines 291-382)
-- ---------------------------------------------------------------------

theorem resize_floor_sum (w h : ℕ) (hh : 0 < h) :
    ⌊(9500 : ℚ) / ((w : ℚ) / (h : ℚ) + 1)⌋₊ = 9500 * h / (w + h) := by
  have hh0 : (h : ℚ) ≠ 0 := Nat.cast_ne_zero.mpr hh.ne'
  have : (9500 : ℚ) / ((w : ℚ) / (h : ℚ) + 1) =
      ((9500 * h : ℕ) : ℚ) / ((w + h : ℕ) : ℚ) := by
    push_cast
    rw [div_add' _ _ _ hh0, div_div_eq_mul_div, one_mul]
  rw [this, Nat.floor_div_eq_div]

theorem resize_floor_mul (n w h : ℕ) :
    ⌊(n : ℚ) * ((w : ℚ) / (h : ℚ))⌋₊ = n * w / h := by
  have : (n : ℚ) * ((w : ℚ) / (h : ℚ)) = ((n * w : ℕ) : ℚ) / ((h : ℕ) : ℚ) := by
    push_cast
    ring
  rw [this, Nat.floor_div_eq_div]

/-- Closed ℕ-division form of the re-encode branch; shared by the C3
theorem and its counterexample. -/
theorem resize_reencode_eq (img : DecodedImage)
    (hviol : 10000 < img.width + img.height ∨ 10000 < img.width ∨ 10000 < img.height)
    (hh : 0 < img.height) :
    resizeImageIfNeeded (some img) =
      some (.reencoded (9500 * img.height / (img.width + img.height) * img.width / img.height)
        (9500 * img.height / (img.width + img.height)) (pyStr "RGB") 85) := by
  have hneg : ¬(img.width + img.height ≤ 10000 ∧ img.width ≤ 10000 ∧ img.height ≤ 10000) := by
    omega
  rw [resizeImageIfNeeded, if_neg hneg, if_neg hh.ne']
  dsimp only
  rw [resize_floor_sum img.width img.height hh,
    resize_floor_mul (9500 * img.height / (img.width + img.height)) img.width img.height]

/-- Refutes C3 as stated: for the decodable 11000×4000 input (which
violates the sum constraint) the code computes `new_width = 6965` by
TRUNCATION (`int(new_height * ratio)`), whereas the claim's formula
`round(new_height * ratio)` gives `6966`. -/
theorem resize_round_counterexample :
    resizeImageIfNeeded (some ⟨11000, 4000⟩) =
      some (.reencoded 6965 2533 (pyStr "RGB") 85)
    ∧ round ((2533 : ℚ) * ((11000 : ℚ) / (4000 : ℚ))) = (6966 : ℤ)
    ∧ (6965 : ℤ) ≠ 6966 := by
  refine ⟨?_, ?_, by decide⟩
  · rw [resize_reencode_eq ⟨11000, 4000⟩ (by decide) (by decide)]
    norm_num
  · rw [round_eq]
    have h4 : (2533 : ℚ) * ((11000 : ℚ) / (4000 : ℚ)) + 1 / 2 = 27865 / 4 := by norm_num
    rw [h4, Int.floor_eq_iff]
    norm_num

/-- C3 (amended): for every decodable image violating the constraints
(width + height > 10000 or a dimension > 10000, with a positive height),
the code re-encodes at the dimensions
`new_height = floor(9500 / (ratio + 1))` and
`new_width = floor(new_height * ratio)` — integer TRUNCATION, not
rounding — with `ratio = width / height`, after converting to the
three-channel `RGB` mode, at JPEG quality 85. -/
theorem resize_dims_floor (img : DecodedImage)
    (hviol : 10000 < img.width + img.height ∨ 10000 < img.width ∨ 10000 < img.height)
    (hh : 0 < img.height) :
    resizeImageIfNeeded (some img) =
      some (.reencoded (9500 * img.height / (img.width + img.height) * img.width / img.height)
        (9500 * img.height / (img.width + img.height)) (pyStr "RGB") 85)
    ∧ 9500 * img.height / (img.width + img.height) =
        ⌊(9500 : ℚ) / ((img.width : ℚ) / (img.height : ℚ) + 1)⌋₊
    ∧ 9500 * img.height / (img.width + img.height) * img.width / img.height =
        ⌊((9500 * img.height / (img.width + img.height) : ℕ) : ℚ) *
          ((img.width : ℚ) / (img.height : ℚ))⌋₊ :=
  ⟨resize_reencode_eq img hviol hh,
   (resize_floor_sum img.width img.height hh).symm,
   (resize_floor_mul _ img.width img.height).symm⟩

theorem resize_dims_floor_witness :
    (10000 < 11000 + 4000 ∨ 10000 < 11000 ∨ 10000 < 4000) ∧ 0 < 4000
    ∧ (resizeImageIfNeeded (some ⟨11000, 4000⟩) =
        some (.reencoded (9500 * 4000 / (11000 + 4000) * 11000 / 4000)
          (9500 * 4000 / (11000 + 4000)) (pyStr "RGB") 85)
       ∧ 9500 * 4000 / (11000 + 4000) =
           ⌊(9500 : ℚ) / ((11000 : ℚ) / (4000 : ℚ) + 1)⌋₊
       ∧ 9500 * 4000 / (11000 + 4000) * 11000 / 4000 =
           ⌊((9500 * 4000 / (11000 + 4000) : ℕ) : ℚ) *
             ((11000 : ℚ) / (4000 : ℚ))⌋₊) :=
  ⟨by omega, by omega, resize_dims_floor ⟨11000, 4000⟩ (by decide) (by decide)⟩

/-- C8: every decodable image already satisfying
width + height ≤ 10000, width ≤ 10000 and height ≤ 10000 is returned
unchanged — identity, no re-encode. -/
theorem resize_identity_within_limits (img : DecodedImage)
    (h : img.width + img.height ≤ 10000 ∧ img.width ≤ 10000 ∧ img.height ≤ 10000) :
    resizeImageIfNeeded (some img) = some ResizeOutcome.original := by
  rw [resizeImageIfNeeded, if_pos h]

theorem resize_identity_witness :
    (1000 + 2000 ≤ 10000 ∧ 1000 ≤ 10000 ∧ 2000 ≤ 10000)
    ∧ resizeImageIfNeeded (some ⟨1000, 2000⟩) = some ResizeOutcome.original :=
  ⟨by omega, resize_identity_within_limits ⟨1000, 2000⟩ (by decide)⟩

-- ---------------------------------------------------------------------
-- Configuration (`core/config.py`)
-- ---------------------------------------------------------------------

theorem sendTextFallback_layerEvent (env : DeliverEnv) (ttl : ℕ) (chat : ℤ)
    (text : Str) (cache : Cache) (evs : List Event)
    (h : ∀ e ∈ evs, layerEvent ttl e) :
    ∀ e ∈ (sendTextFallback env chat text cache evs).events, layerEvent ttl e := by
  intro e he
  rcases List.mem_append.mp he with h1 | h2
  · exact h e h1
  · rcases List.mem_singleton.mp h2 with rfl
    rfl

theorem sendViaFetched_layerEvent (env : DeliverEnv) (ttl : ℕ) (chat : ℤ)
    (url text : Str) (cache : Cache) (evs : List Event)
    (h : ∀ e ∈ evs, layerEvent ttl e) :
    ∀ e ∈ (sendViaFetched env ttl chat url text cache evs).events, layerEvent ttl e := by
  have hphoto : ∀ bytes, ∀ e ∈ evs ++ [Event.sendPhoto chat (.file bytes) (some text)],
      layerEvent ttl e = true := by
    intro bytes e he
    rcases List.mem_append.mp he with h1 | h2
    · exact h e h1
    · rcases List.mem_singleton.mp h2 with rfl
      rfl
  unfold sendViaFetched
  cases env.fetched with
  | none => exact sendTextFallback_layerEvent env ttl chat text cache evs h
  | some bytes =>
    cases env.fileSend with
    | ok fid =>
      intro e he
      rcases List.mem_append.mp he with h1 | h2
      · exact hphoto bytes e h1
      · rcases List.mem_singleton.mp h2 with rfl
        simp [layerEvent]
    | err k =>
      exact sendTextFallback_layerEvent env ttl chat text cache _ (hphoto bytes)

theorem sendViaUrl_layerEvent (env : DeliverEnv) (ttl : ℕ) (chat : ℤ)
    (url text : Str) (cache : Cache) (evs : List Event)
    (h : ∀ e ∈ evs, layerEvent ttl e) :
    ∀ e ∈ (sendViaUrl env ttl chat url text cache evs).events, layerEvent ttl e := by
  have hphoto : ∀ e ∈ evs ++ [Event.sendPhoto chat (.url url) (some text)],
      layerEvent ttl e = true := by
    intro e he
    rcases List.mem_append.mp he with h1 | h2
    · exact h e h1
    · rcases List.mem_singleton.mp h2 with rfl
      rfl
  unfold sendViaUrl
  cases env.urlSend with
  | ok fid =>
    intro e he
    rcases List.mem_append.mp he with h1 | h2
    · exact hphoto e h1
    · rcases List.mem_singleton.mp h2 with rfl
      simp [layerEvent]
  | err k =>
    cases k with
    | badRequest => exact sendViaFetched_layerEvent env ttl chat url text cache _ hphoto
    | other => exact hphoto

theorem sendItemWithImage_layerEvent (env : DeliverEnv) (ttl : ℕ) (chat : ℤ)
    (url text : Str) (cache : Cache) :
    ∀ e ∈ (sendItemWithImage env ttl chat url text cache).events, layerEvent ttl e := by
  unfold sendItemWithImage
  cases hc : cacheLookup cache (photoKey url) with
  | none =>
    exact sendViaUrl_layerEvent env ttl chat url text cache _
      (by intro e he; rcases List.mem_singleton.mp he with rfl; rfl)
  | some fid =>
    dsimp only
    by_cases hf : fid.isEmpty
    · rw [if_pos hf]
      exact sendViaUrl_layerEvent env ttl chat url text cache _
        (by intro e he; rcases List.mem_singleton.mp he with rfl; rfl)
    · rw [if_neg hf]
      have hpre : ∀ e ∈ [Event.cacheGet (photoKey url) (some fid),
          Event.sendPhoto chat (.handle fid) (some text)], layerEvent ttl e = true := by
        intro e he
        rcases List.mem_cons.mp he with rfl | h2
        · rfl
        · rcases List.mem_singleton.mp h2 with rfl
          rfl
      cases env.cachedSend with
      | ok g => exact hpre
      | err k =>
        refine sendViaUrl_layerEvent env ttl chat url text _ _ ?_
        intro e he
        rcases List.mem_append.mp he with h1 | h2
        · exact hpre e h1
        · rcases List.mem_singleton.mp h2 with rfl
          rfl

theorem sendTextFallback_raised (env : DeliverEnv) (chat : ℤ) (text : Str)
    (cache : Cache) (evs : List Event) :
    (sendTextFallback env chat text cache evs).raised = env.msgSend := rfl

theorem sendViaFetched_raised (env : DeliverEnv) (ttl : ℕ) (chat : ℤ)
    (url text : Str) (cache : Cache) (evs : List Event)
    (hmsg : env.msgSend = none) :
    (sendViaFetched env ttl chat url text cache evs).raised = none := by
  unfold sendViaFetched
  cases env.fetched with
  | none => rw [sendTextFallback_raised, hmsg]
  | some bytes =>
    cases env.fileSend with
    | ok fid => rfl
    | err k => rw [sendTextFallback_raised, hmsg]

theorem sendViaUrl_raised (env : DeliverEnv) (ttl : ℕ) (chat : ℤ)
    (url text : Str) (cache : Cache) (evs : List Event)
    (hurl : env.urlSend ≠ SendOutcome.err ErrKind.other)
    (hmsg : env.msgSend = none) :
    (sendViaUrl env ttl chat url text cache evs).raised = none := by
  unfold sendViaUrl
  cases hu : env.urlSend with
  | ok fid => rfl
  | err k =>
    cases k with
    | badRequest => exact sendViaFetched_raised env ttl chat url text cache _ hmsg
    | other => exact absurd hu hurl

/-- Core of the C1 amendment, shared with the loop-level lemmas: the call
returns normally whenever any direct-URL failure is a bad request and the
terminal text send succeeds. -/
theorem sendItemWithImage_raised (env : DeliverEnv) (ttl : ℕ) (chat : ℤ)
    (url text : Str) (cache : Cache)
    (hurl : env.urlSend ≠ SendOutcome.err ErrKind.other)
    (hmsg : env.msgSend = none) :
    (sendItemWithImage env ttl chat url text cache).raised = none := by
  unfold sendItemWithImage
  cases hc : cacheLookup cache (photoKey url) with
  | none => exact sendViaUrl_raised env ttl chat url text cache _ hurl hmsg
  | some fid =>
    dsimp only
    by_cases hf : fid.isEmpty
    · rw [if_pos hf]
      exact sendViaUrl_raised env ttl chat url text cache _ hurl hmsg
    · rw [if_neg hf]
      cases env.cachedSend with
      | ok g => rfl
      | err k => exact sendViaUrl_raised env ttl chat url text _ _ hurl hmsg

/-- When both the cached-handle layer and the direct-URL layer would
succeed, a delivery makes exactly one send, captioned with the formatted
text, and returns normally (whichever of the two layers runs). -/
theorem sendItemWithImage_single_text (env : DeliverEnv) (ttl : ℕ) (chat : ℤ)
    (url text : Str) (cache : Cache)
    (hcached : ∃ f, env.cachedSend = SendOutcome.ok f)
    (hurl : ∃ f, env.urlSend = SendOutcome.ok f) :
    deliveredTexts (sendItemWithImage env ttl chat url text cache).events = [text]
    ∧ (sendItemWithImage env ttl chat url text cache).raised = none := by
  obtain ⟨f1, h1⟩ := hcached
  obtain ⟨f2, h2⟩ := hurl
  unfold sendItemWithImage
  cases hc : cacheLookup cache (photoKey url) with
  | none =>
    unfold sendViaUrl
    rw [h2]
    exact ⟨rfl, rfl⟩
  | some fid =>
    dsimp only
    by_cases hf : fid.isEmpty
    · rw [if_pos hf]
      unfold sendViaUrl
      rw [h2]
      exact ⟨rfl, rfl⟩
    · rw [if_neg hf, h1]
      exact ⟨rfl, rfl⟩

-- ---------------------------------------------------------------------
-- C1: the delivery engine's no-raise contract
-- ---------------------------------------------------------------------

/-- Refutes C1 as stated: layer 2 catches ONLY `TelegramBadRequest`, so a
different platform failure of the direct-URL send (with an empty cache)
propagates out of `_send_item_with_image` — the call raises instead of
falling through to the next layer. -/
theorem sendItemWithImage_raises_counterexample :
    (sendItemWithImage floodEnv 691200 1 (pyStr "http://img") (pyStr "text") []).raised
      = some ErrKind.other := rfl

/-- C1 (amended): for every chat target, image URL, text and cache state,
`_send_item_with_image` terminates normally — layer-1 and layer-3
failures of any kind fall through to the next layer — PROVIDED any
direct-URL failure is a `TelegramBadRequest` rejection and the terminal
text-only send succeeds; in the worst case (cache miss, direct-URL
rejection, no fetched image) the call ends by sending the text-only
fallback message. -/
theorem sendItemWithImage_no_raise (env : DeliverEnv) (ttl : ℕ) (chat : ℤ)
    (url text : Str) (cache : Cache)
    (hurl : env.urlSend ≠ SendOutcome.err ErrKind.other)
    (hmsg : env.msgSend = none) :
    (sendItemWithImage env ttl chat url text cache).raised = none
    ∧ (cacheLookup cache (photoKey url) = none →
       env.urlSend = SendOutcome.err ErrKind.badRequest →
       env.fetched = none →
       (sendItemWithImage env ttl chat url text cache).events =
         [Event.cacheGet (photoKey url) none,
          Event.sendPhoto chat (PhotoRef.url url) (some text),
          Event.sendMessage chat text]) := by
  refine ⟨sendItemWithImage_raised env ttl chat url text cache hurl hmsg, ?_⟩
  intro hc hu hf
  simp only [sendItemWithImage, sendViaUrl, sendViaFetched, sendTextFallback, hc, hu, hf]
  rfl

theorem sendItemWithImage_no_raise_witness :
    (exhaustEnv.urlSend ≠ SendOutcome.err ErrKind.other)
    ∧ exhaustEnv.msgSend = none
    ∧ ((sendItemWithImage exhaustEnv 691200 1 (pyStr "u") (pyStr "t") []).raised = none
       ∧ (cacheLookup [] (photoKey (pyStr "u")) = none →
          exhaustEnv.urlSend = SendOutcome.err ErrKind.badRequest →
          exhaustEnv.fetched = none →
          (sendItemWithImage exhaustEnv 691200 1 (pyStr "u") (pyStr "t") []).events =
            [Event.cacheGet (photoKey (pyStr "u")) none,
             Event.sendPhoto 1 (PhotoRef.url (pyStr "u")) (some (pyStr "t")),
             Event.sendMessage 1 (pyStr "t")])) :=
  ⟨by decide, rfl,
   sendItemWithImage_no_raise exhaustEnv 691200 1 (pyStr "u") (pyStr "t") [] (by decide) rfl⟩

-- ---------------------------------------------------------------------
-- C4: the cache round trip
-- ---------------------------------------------------------------------

/-- Refutes C4's "exactly one more layer is attempted" after a
cached-handle rejection: with the direct-URL retry also failing, the
engine goes on to the text fallback — TWO further layers are attempted
(the cache entry is still deleted). -/
theorem cache_reject_layers_counterexample :
    (sendItemWithImage rejectEnv 691200 1 (pyStr "u") (pyStr "t")
        [(photoKey (pyStr "u"), pyStr "F")]).events =
      [Event.cacheGet (photoKey (pyStr "u")) (some (pyStr "F")),
       Event.sendPhoto 1 (PhotoRef.handle (pyStr "F")) (some (pyStr "t")),
       Event.cacheDel (photoKey (pyStr "u")),
       Event.sendPhoto 1 (PhotoRef.url (pyStr "u")) (some (pyStr "t")),
       Event.sendMessage 1 (pyStr "t")]
    ∧ layerSends ((sendItemWithImage rejectEnv 691200 1 (pyStr "u") (pyStr "t")
        [(photoKey (pyStr "u"), pyStr "F")]).events.drop 3) = 2
    ∧ (2 : ℕ) ≠ 1 := by
  refine ⟨?_, ?_, by decide⟩ <;> decide

/-- C4 (amended): after a successful direct-URL send the platform handle
is stored under `"photo:" + imageURL`; a subsequent delivery for the same
URL whose cached-handle send succeeds makes no raw-URL attempt; and if
the platform rejects the cached handle, the cache entry is deleted and
the engine falls through — attempting exactly one more layer when the
direct-URL retry succeeds (more if it fails too). -/
theorem cache_round_trip (env1 env2 : DeliverEnv) (ttl : ℕ) (chat : ℤ)
    (url text1 text2 fid : Str)
    (h1 : env1.urlSend = SendOutcome.ok fid) (hfid : fid.isEmpty = false) :
    cacheLookup (sendItemWithImage env1 ttl chat url text1 []).cache (photoKey url)
      = some fid
    ∧ Event.cacheSet (photoKey url) fid ttl
        ∈ (sendItemWithImage env1 ttl chat url text1 []).events
    ∧ (∀ g, env2.cachedSend = SendOutcome.ok g →
        (sendItemWithImage env2 ttl chat url text2
            (sendItemWithImage env1 ttl chat url text1 []).cache).events =
          [Event.cacheGet (photoKey url) (some fid),
           Event.sendPhoto chat (PhotoRef.handle fid) (some text2)])
    ∧ (∀ k g, env2.cachedSend = SendOutcome.err k → env2.urlSend = SendOutcome.ok g →
        (sendItemWithImage env2 ttl chat url text2
            (sendItemWithImage env1 ttl chat url text1 []).cache).events =
          [Event.cacheGet (photoKey url) (some fid),
           Event.sendPhoto chat (PhotoRef.handle fid) (some text2),
           Event.cacheDel (photoKey url),
           Event.sendPhoto chat (PhotoRef.url url) (some text2),
           Event.cacheSet (photoKey url) g ttl]
        ∧ layerSends ((sendItemWithImage env2 ttl chat url text2
            (sendItemWithImage env1 ttl chat url text1 []).cache).events.drop 3) = 1) := by
  have hr1 : sendItemWithImage env1 ttl chat url text1 [] =
      { cache := [(photoKey url, fid)]
        events := [Event.cacheGet (photoKey url) none,
                   Event.sendPhoto chat (PhotoRef.url url) (some text1),
                   Event.cacheSet (photoKey url) fid ttl]
        raised := none } := by
    simp only [sendItemWithImage, cacheLookup, List.find?_nil, sendViaUrl, h1,
      cacheStore, List.filter_nil]
    rfl
  have hlook : cacheLookup [(photoKey url, fid)] (photoKey url) = some fid := by
    simp [cacheLookup, List.find?_cons]
  refine ⟨by rw [hr1]; exact hlook, by rw [hr1]; simp, ?_, ?_⟩
  · intro g hg
    rw [hr1]
    simp only [sendItemWithImage, hlook]
    rw [if_neg (by simp [hfid]), hg]
  · intro k g hk hg
    have hrem : cacheRemove [(photoKey url, fid)] (photoKey url) = [] := by
      simp [cacheRemove]
    rw [hr1]
    simp only [sendItemWithImage, hlook]
    rw [if_neg (by simp [hfid]), hk]
    simp only [sendViaUrl, hg, hrem]
    exact ⟨rfl, rfl⟩

theorem cache_round_trip_witness :
    urlOkEnv.urlSend = SendOutcome.ok (pyStr "F1")
    ∧ (pyStr "F1").isEmpty = false
    ∧ (cacheLookup (sendItemWithImage urlOkEnv 691200 1 (pyStr "u") (pyStr "t1") []).cache
          (photoKey (pyStr "u")) = some (pyStr "F1")
       ∧ Event.cacheSet (photoKey (pyStr "u")) (pyStr "F1") 691200
           ∈ (sendItemWithImage urlOkEnv 691200 1 (pyStr "u") (pyStr "t1") []).events
       ∧ (∀ g, retryOkEnv.cachedSend = SendOutcome.ok g →
           (sendItemWithImage retryOkEnv 691200 1 (pyStr "u") (pyStr "t2")
               (sendItemWithImage urlOkEnv 691200 1 (pyStr "u") (pyStr "t1") []).cache).events =
             [Event.cacheGet (photoKey (pyStr "u")) (some (pyStr "F1")),
              Event.sendPhoto 1 (PhotoRef.handle (pyStr "F1")) (some (pyStr "t2"))])
       ∧ (∀ k g, retryOkEnv.cachedSend = SendOutcome.err k →
           retryOkEnv.urlSend = SendOutcome.ok g →
           (sendItemWithImage retryOkEnv 691200 1 (pyStr "u") (pyStr "t2")
               (sendItemWithImage urlOkEnv 691200 1 (pyStr "u") (pyStr "t1") []).cache).events =
             [Event.cacheGet (photoKey (pyStr "u")) (some (pyStr "F1")),
              Event.sendPhoto 1 (PhotoRef.handle (pyStr "F1")) (some (pyStr "t2")),
              Event.cacheDel (photoKey (pyStr "u")),
              Event.sendPhoto 1 (PhotoRef.url (pyStr "u")) (some (pyStr "t2")),
              Event.cacheSet (photoKey (pyStr "u")) g 691200]
           ∧ layerSends ((sendItemWithImage retryOkEnv 691200 1 (pyStr "u") (pyStr "t2")
               (sendItemWithImage urlOkEnv 691200 1 (pyStr "u") (pyStr "t1") []).cache).events.drop 3)
             = 1)) :=
  ⟨rfl, rfl,
   cache_round_trip urlOkEnv retryOkEnv 691200 1 (pyStr "u") (pyStr "t1") (pyStr "t2")
     (pyStr "F1") rfl rfl⟩

-- ---------------------------------------------------------------------
-- Loop-level event invariants
-- ---------------------------------------------------------------------

theorem processItem_layerEvent (env : CycleEnv) (ttl : ℕ) (task : MonitoringTask)
    (it : Item) (cache : Cache) :
    ∀ e ∈ (processItem env ttl task it cache).events, layerEvent ttl e := by
  unfold processItem
  cases hi : it.image_url with
  | none =>
    intro e he
    rcases List.mem_singleton.mp he with rfl
    rfl
  | some u =>
    dsimp only
    by_cases hu : u.isEmpty
    · rw [if_pos hu]
      intro e he
      rcases List.mem_singleton.mp he with rfl
      rfl
    · rw [if_neg hu]
      exact sendItemWithImage_layerEvent (env.deliverEnv task it) ttl task.chat_id u
        (formatItemText it) cache

theorem itemsLoop_events (env : CycleEnv) (ttl : ℕ) (task : MonitoringTask) :
    ∀ (items : List Item) (cache : Cache),
      ∀ e ∈ (itemsLoop env ttl task items cache).2.1,
        layerEvent ttl e = true ∨ e = Event.sleep 500 := by
  intro items
  induction items with
  | nil =>
    intro cache e he
    simp [itemsLoop] at he
  | cons it rest ih =>
    intro cache e he
    simp only [itemsLoop] at he
    cases hr : (processItem env ttl task it cache).raised with
    | some err =>
      simp only [hr] at he
      exact Or.inl (processItem_layerEvent env ttl task it cache e he)
    | none =>
      simp only [hr] at he
      rcases List.mem_append.mp he with h1 | h2
      · exact Or.inl (processItem_layerEvent env ttl task it cache e h1)
      · rcases List.mem_cons.mp h2 with rfl | h3
        · exact Or.inr rfl
        · exact ih _ e h3

theorem processTask_events (env : CycleEnv) (ttl : ℕ) (task : MonitoringTask)
    (cache : Cache) :
    ∀ e ∈ (processTask env ttl task cache).2.1,
      layerEvent ttl e = true ∨ e = Event.sleep 500
      ∨ e = Event.updateLastGotItem task.chat_id ∨ e = Event.updateLastUpdated task.id := by
  intro e he
  simp only [processTask] at he
  cases hi : env.itemsToSend task with
  | error err => simp [hi] at he
  | ok items =>
    simp only [hi] at he
    by_cases hempty : items.isEmpty
    · rw [if_pos hempty] at he
      rcases List.mem_singleton.mp he with rfl
      exact Or.inr (Or.inr (Or.inr rfl))
    · rw [if_neg hempty] at he
      cases hs : env.summarySend task with
      | some err =>
        simp only [hs] at he
        rcases List.mem_singleton.mp he with rfl
        exact Or.inl rfl
      | none =>
        simp only [hs] at he
        cases hr : (itemsLoop env ttl task items.reverse cache).2.2 with
        | some err =>
          simp only [hr] at he
          rcases List.mem_cons.mp he with rfl | h2
          · exact Or.inl rfl
          · rcases itemsLoop_events env ttl task items.reverse cache e h2 with h | h
            · exact Or.inl h
            · exact Or.inr (Or.inl h)
        | none =>
          simp only [hr] at he
          cases hg : env.lastGotItemOutcome task with
          | some err =>
            simp only [hg] at he
            rcases List.mem_cons.mp he with rfl | h2
            · exact Or.inl rfl
            · rcases List.mem_append.mp h2 with h3 | h4
              · rcases itemsLoop_events env ttl task items.reverse cache e h3 with h | h
                · exact Or.inl h
                · exact Or.inr (Or.inl h)
              · rcases List.mem_singleton.mp h4 with rfl
                exact Or.inr (Or.inr (Or.inl rfl))
          | none =>
            simp only [hg] at he
            rcases List.mem_cons.mp he with rfl | h2
            · exact Or.inl rfl
            · rcases List.mem_append.mp h2 with h3 | h4
              · rcases itemsLoop_events env ttl task items.reverse cache e h3 with h | h
                · exact Or.inl h
                · exact Or.inr (Or.inl h)
              · rcases List.mem_cons.mp h4 with rfl | h5
                · exact Or.inr (Or.inr (Or.inl rfl))
                · rcases List.mem_singleton.mp h5 with rfl
                  exact Or.inr (Or.inr (Or.inr rfl))

theorem tasksLoop_sleep (env : CycleEnv) (ttl : ℕ) :
    ∀ (tasks : List MonitoringTask) (cache : Cache) (ms : ℕ),
      Event.sleep ms ∈ (tasksLoop env ttl tasks cache).2.1 → ms = 500 := by
  intro tasks
  induction tasks with
  | nil =>
    intro cache ms h
    simp [tasksLoop] at h
  | cons t rest ih =>
    intro cache ms h
    have hstep : ∀ c : Cache, Event.sleep ms ∈ (processTask env ttl t c).2.1 → ms = 500 := by
      intro c hm
      rcases processTask_events env ttl t c _ hm with h1 | h1 | h1 | h1
      · simp [layerEvent] at h1
      · injection h1
      · cases h1
      · cases h1
    simp only [tasksLoop] at h
    cases hr : (processTask env ttl t cache).2.2 with
    | some err =>
      simp only [hr] at h
      exact hstep cache h
    | none =>
      simp only [hr] at h
      rcases List.mem_append.mp h with h1 | h2
      · exact hstep cache h1
      · exact ih _ ms h2

theorem checkAndSendItems_sleep (env : CycleEnv) (ttl : ℕ) (cache : Cache) (ms : ℕ) :
    Event.sleep ms ∈ (checkAndSendItems env ttl cache).2.1 → ms = 500 := by
  intro h
  unfold checkAndSendItems at h
  cases hp : env.pendingTasks with
  | error err => simp [hp] at h
  | ok tasks =>
    simp only [hp] at h
    exact tasksLoop_sleep env ttl tasks cache ms h

/-- The unrolled loop completes every scheduled cycle: its trace contains
exactly one inter-cycle sleep per iteration, failures notwithstanding. -/
theorem runPeriodically_count (env : CycleEnv) (ttl intervalS : ℕ) :
    ∀ (n : ℕ) (cache : Cache),
      ((runPeriodically env ttl intervalS n cache).2.countP
        (fun ev => ev == Event.sleep (intervalS * 1000))) = n := by
  intro n
  induction n with
  | zero => intro cache; rfl
  | succ n ih =>
    intro cache
    simp only [runPeriodically]
    rw [List.countP_append, List.countP_append, List.countP_cons]
    have hcycle : (checkAndSendItems env ttl cache).2.1.countP
        (fun ev => ev == Event.sleep (intervalS * 1000)) = 0 := by
      rw [List.countP_eq_zero]
      intro e he hbeq
      have heq : e = Event.sleep (intervalS * 1000) := by
        exact eq_of_beq hbeq
      subst heq
      have h500 := checkAndSendItems_sleep env ttl cache _ he
      omega
    have hlog : (match (checkAndSendItems env ttl cache).2.2 with
        | some _ => [Event.logException] | none => ([] : List Event)).countP
        (fun ev => ev == Event.sleep (intervalS * 1000)) = 0 := by
      cases (checkAndSendItems env ttl cache).2.2 <;> rfl
    rw [hcycle, hlog, ih]
    simp

-- ---------------------------------------------------------------------
-- C2: service-port failure inside a cycle
-- ---------------------------------------------------------------------

/-- Refutes C2 as stated: when the first task's item fetch raises, the
cycle yields nothing at all — in particular the second task is NOT
processed in that cycle (its empty-items bookkeeping call never
happens); there is no per-task handler inside `_check_and_send_items`. -/
theorem cycle_abort_counterexample :
    checkAndSendItems svcFailEnv 691200 [] = ([], [], some ErrKind.other)
    ∧ Event.updateLastUpdated 2 ∉ (checkAndSendItems svcFailEnv 691200 []).2.1 := by
  exact ⟨rfl, by decide⟩

/-- C2 (amended): a service-port failure while processing one task aborts
the REMAINDER of that cycle — the cycle's result is the same as if the
remaining pending tasks did not exist, so they are not processed until
the next cycle — while the loop-level handler catches and logs the error
and the loop itself completes every scheduled cycle. -/
theorem cycle_abort_and_loop_continues (env : CycleEnv) (ttl : ℕ)
    (t : MonitoringTask) (rest : List MonitoringTask) (cache : Cache) (e : ErrKind)
    (hfail : env.itemsToSend t = Except.error e) :
    tasksLoop env ttl (t :: rest) cache = (cache, [], some e)
    ∧ tasksLoop env ttl (t :: rest) cache = tasksLoop env ttl [t] cache
    ∧ ∀ (intervalS n : ℕ) (c0 : Cache),
        ((runPeriodically env ttl intervalS n c0).2.countP
          (fun ev => ev == Event.sleep (intervalS * 1000))) = n := by
  have hstep : ∀ c : Cache, processTask env ttl t c = (c, [], some e) := by
    intro c
    simp [processTask, hfail]
  have habort : ∀ r : List MonitoringTask, tasksLoop env ttl (t :: r) cache = (cache, [], some e) := by
    intro r
    simp only [tasksLoop, hstep]
  exact ⟨habort rest, by rw [habort rest, habort []],
    fun intervalS n c0 => runPeriodically_count env ttl intervalS n c0⟩

theorem cycle_abort_and_loop_continues_witness :
    svcFailEnv.itemsToSend ⟨1, 10, pyStr "a"⟩ = Except.error ErrKind.other
    ∧ (tasksLoop svcFailEnv 691200 [⟨1, 10, pyStr "a"⟩, ⟨2, 20, pyStr "b"⟩] []
         = ([], [], some ErrKind.other)
       ∧ tasksLoop svcFailEnv 691200 [⟨1, 10, pyStr "a"⟩, ⟨2, 20, pyStr "b"⟩] []
         = tasksLoop svcFailEnv 691200 [⟨1, 10, pyStr "a"⟩] []
       ∧ ∀ (intervalS n : ℕ) (c0 : Cache),
           ((runPeriodically svcFailEnv 691200 intervalS n c0).2.countP
             (fun ev => ev == Event.sleep (intervalS * 1000))) = n) :=
  ⟨rfl, cycle_abort_and_loop_continues svcFailEnv 691200 ⟨1, 10, pyStr "a"⟩
    [⟨2, 20, pyStr "b"⟩] [] ErrKind.other rfl⟩

-- ---------------------------------------------------------------------
-- C9: the image-cache TTL
-- ---------------------------------------------------------------------

/-- Refutes C9 as stated: configuring the retention window to 30 days
(without configuring the TTL) leaves the TTL at its class-body default of
8 days — the pydantic default was computed once from the DEFAULT
retention of 7 — instead of the claimed 30 + 1 = 31. -/
theorem ttl_not_derived_counterexample :
    (settingsOf retentionOnlyEnv).IMAGE_CACHE_TTL_DAYS = 8
    ∧ (settingsOf retentionOnlyEnv).DB_REMOVE_OLD_ITEMS_DATA_N_DAYS + 1 = 31
    ∧ (8 : ℕ) ≠ 31 := ⟨rfl, rfl, by decide⟩

/-- C9 (amended): with neither field configured, the DEFAULT image-cache
TTL is one more day than the DEFAULT data-retention window (8 = 7 + 1) —
but the derivation holds only at the class-body defaults, not for every
configured retention value — and the delivery engine applies the
notifier's TTL, days × 86400 seconds, on every cache set it performs. -/
theorem ttl_default_and_applied (env : SettingsEnv) (denv : DeliverEnv) (chat : ℤ)
    (url text : Str) (cache : Cache)
    (httl : env.imageCacheTtlDays = none) (hret : env.dbRemoveOldItemsDataNDays = none) :
    (settingsOf env).IMAGE_CACHE_TTL_DAYS
      = (settingsOf env).DB_REMOVE_OLD_ITEMS_DATA_N_DAYS + 1
    ∧ notifierImageCacheTtl (settingsOf env)
      = (settingsOf env).IMAGE_CACHE_TTL_DAYS * 86400
    ∧ ∀ k v ttlSec, Event.cacheSet k v ttlSec ∈
        (sendItemWithImage denv (notifierImageCacheTtl (settingsOf env))
          chat url text cache).events →
        ttlSec = notifierImageCacheTtl (settingsOf env) := by
  refine ⟨by simp [settingsOf, httl, hret, defaultImageCacheTtlDays, defaultRemoveOldDays], rfl, ?_⟩
  intro k v ttlSec hm
  have h := sendItemWithImage_layerEvent denv (notifierImageCacheTtl (settingsOf env))
    chat url text cache _ hm
  simpa [layerEvent] using h

theorem ttl_default_and_applied_witness :
    noConfigEnv.imageCacheTtlDays = none
    ∧ noConfigEnv.dbRemoveOldItemsDataNDays = none
    ∧ ((settingsOf noConfigEnv).IMAGE_CACHE_TTL_DAYS
         = (settingsOf noConfigEnv).DB_REMOVE_OLD_ITEMS_DATA_N_DAYS + 1
       ∧ notifierImageCacheTtl (settingsOf noConfigEnv)
         = (settingsOf noConfigEnv).IMAGE_CACHE_TTL_DAYS * 86400
       ∧ ∀ k v ttlSec, Event.cacheSet k v ttlSec ∈
           (sendItemWithImage urlOkEnv (notifierImageCacheTtl (settingsOf noConfigEnv))
             1 (pyStr "u") (pyStr "t") []).events →
           ttlSec = notifierImageCacheTtl (settingsOf noConfigEnv)) :=
  ⟨rfl, rfl, ttl_default_and_applied noConfigEnv
    urlOkEnv 1 (pyStr "u") (pyStr "t") [] rfl rfl⟩

-- ---------------------------------------------------------------------
-- C10: items without an image URL
-- ---------------------------------------------------------------------

/-- C10: for an item whose image-URL field is absent, `None`, or the
empty string (all falsy), the loop body sends exactly one plain text
message carrying the formatted text, and performs no cache read, cache
write, or photo send — the trace is that single message and the cache is
untouched. -/
theorem no_image_sends_text_only (env : CycleEnv) (ttl : ℕ) (task : MonitoringTask)
    (it : Item) (cache : Cache)
    (h : it.image_url = none ∨ it.image_url = some []) :
    (processItem env ttl task it cache).events
      = [Event.sendMessage task.chat_id (formatItemText it)]
    ∧ (processItem env ttl task it cache).cache = cache := by
  rcases h with h | h <;> simp [processItem, h]

theorem no_image_sends_text_only_witness :
    (noImageItem.image_url = none ∨ noImageItem.image_url = some [])
    ∧ ((processItem idleCycleEnv 691200 ⟨7, 1, pyStr "n"⟩ noImageItem []).events
         = [Event.sendMessage (1 : ℤ) (formatItemText noImageItem)]
       ∧ (processItem idleCycleEnv 691200 ⟨7, 1, pyStr "n"⟩ noImageItem []).cache = []) :=
  ⟨Or.inr rfl,
   no_image_sends_text_only idleCycleEnv 691200 ⟨7, 1, pyStr "n"⟩ noImageItem [] (Or.inr rfl)⟩

-- ---------------------------------------------------------------------
-- C7: one summary, reverse delivery order, pauses, bookkeeping
-- ---------------------------------------------------------------------

theorem deliveredTexts_append (a b : List Event) :
    deliveredTexts (a ++ b) = deliveredTexts a ++ deliveredTexts b := by
  simp [deliveredTexts]

theorem deliveredTexts_sleep_cons (n : ℕ) (l : List Event) :
    deliveredTexts (Event.sleep n :: l) = deliveredTexts l := by
  simp [deliveredTexts]

theorem deliveredTexts_photo_cons (chat : ℤ) (p : PhotoRef) (c : Str) (l : List Event) :
    deliveredTexts (Event.sendPhoto chat p (some c) :: l) = c :: deliveredTexts l := by
  simp [deliveredTexts]

theorem processItem_clean (env : CycleEnv) (ttl : ℕ) (task : MonitoringTask)
    (it : Item) (cache : Cache) (h : goodDeliver (env.deliverEnv task it)) :
    (processItem env ttl task it cache).raised = none
    ∧ deliveredTexts (processItem env ttl task it cache).events = [formatItemText it] := by
  obtain ⟨h1, h2, h3⟩ := h
  unfold processItem
  cases hi : it.image_url with
  | none => exact ⟨h3, rfl⟩
  | some u =>
    dsimp only
    by_cases hu : u.isEmpty
    · rw [if_pos hu]
      exact ⟨h3, rfl⟩
    · rw [if_neg hu]
      obtain ⟨ht, hr⟩ := sendItemWithImage_single_text (env.deliverEnv task it) ttl
        task.chat_id u (formatItemText it) cache h1 h2
      exact ⟨hr, ht⟩

theorem itemsLoop_clean (env : CycleEnv) (ttl : ℕ) (task : MonitoringTask) :
    ∀ (items : List Item) (cache : Cache),
      (∀ it ∈ items, goodDeliver (env.deliverEnv task it)) →
      (itemsLoop env ttl task items cache).2.2 = none
      ∧ deliveredTexts (itemsLoop env ttl task items cache).2.1 = items.map formatItemText
      ∧ (itemsLoop env ttl task items cache).2.1.countP
          (fun e => e == Event.sleep 500) = items.length := by
  intro items
  induction items with
  | nil => intro cache _; exact ⟨rfl, rfl, rfl⟩
  | cons it rest ih =>
    intro cache h
    obtain ⟨hr, ht⟩ := processItem_clean env ttl task it cache (h it (List.mem_cons_self it rest))
    obtain ⟨ih1, ih2, ih3⟩ := ih (processItem env ttl task it cache).cache
      (fun x hx => h x (List.mem_cons_of_mem it hx))
    have hnosleep : (processItem env ttl task it cache).events.countP
        (fun e => e == Event.sleep 500) = 0 := by
      rw [List.countP_eq_zero]
      intro e he hbe
      have hl := processItem_layerEvent env ttl task it cache e he
      have heq : e = Event.sleep 500 := eq_of_beq hbe
      subst heq
      simp [layerEvent] at hl
    refine ⟨?_, ?_, ?_⟩ <;> simp only [itemsLoop, hr]
    · exact ih1
    · rw [deliveredTexts_append, ht, deliveredTexts_sleep_cons, ih2]
      rfl
    · rw [List.countP_append, hnosleep, List.countP_cons, ih3]
      simp

/-- C7: for every task whose item fetch yields a non-empty list, under an
environment in which every send succeeds, the loop emits one summary
notification first, then delivers the items in the REVERSE of the fetch
order with a 0.5 s pause per item, and ends with exactly one
`update_last_got_item` and exactly one `update_last_updated` call, in
that order, after all items. -/
theorem task_delivery_order (env : CycleEnv) (ttl : ℕ) (task : MonitoringTask)
    (items : List Item) (cache : Cache)
    (hitems : env.itemsToSend task = Except.ok items)
    (hne : items ≠ [])
    (hsum : env.summarySend task = none)
    (hgood : ∀ it ∈ items, goodDeliver (env.deliverEnv task it))
    (hgot : env.lastGotItemOutcome task = none) :
    (processTask env ttl task cache).2.1 =
      Event.sendPhoto task.chat_id (PhotoRef.url summaryPhotoUrl)
          (some (itemsFoundCaption items.length task.name))
        :: ((itemsLoop env ttl task items.reverse cache).2.1
            ++ [Event.updateLastGotItem task.chat_id, Event.updateLastUpdated task.id])
    ∧ deliveredTexts (processTask env ttl task cache).2.1 =
        itemsFoundCaption items.length task.name :: (items.reverse.map formatItemText)
    ∧ (processTask env ttl task cache).2.1.countP
        (fun e => e == Event.sleep 500) = items.length
    ∧ (processTask env ttl task cache).2.1.countP
        (fun e => e == Event.updateLastGotItem task.chat_id) = 1
    ∧ (processTask env ttl task cache).2.1.countP
        (fun e => e == Event.updateLastUpdated task.id) = 1 := by
  have hempty : items.isEmpty = false := by
    cases items with
    | nil => exact absurd rfl hne
    | cons a l => rfl
  have hrev : ∀ it ∈ items.reverse, goodDeliver (env.deliverEnv task it) :=
    fun it hx => hgood it (List.mem_reverse.mp hx)
  obtain ⟨l1, l2, l3⟩ := itemsLoop_clean env ttl task items.reverse cache hrev
  have htrace : (processTask env ttl task cache).2.1 =
      Event.sendPhoto task.chat_id (PhotoRef.url summaryPhotoUrl)
          (some (itemsFoundCaption items.length task.name))
        :: ((itemsLoop env ttl task items.reverse cache).2.1
            ++ [Event.updateLastGotItem task.chat_id, Event.updateLastUpdated task.id]) := by
    simp only [processTask, hitems, hempty, Bool.false_eq_true, if_false, hsum, l1, hgot,
      List.cons_append]
  have hloopNoGot : (itemsLoop env ttl task items.reverse cache).2.1.countP
      (fun e => e == Event.updateLastGotItem task.chat_id) = 0 := by
    rw [List.countP_eq_zero]
    intro e he hbe
    have heq : e = Event.updateLastGotItem task.chat_id := eq_of_beq hbe
    subst heq
    rcases itemsLoop_events env ttl task items.reverse cache _ he with h | h
    · simp [layerEvent] at h
    · simp at h
  have hloopNoUpd : (itemsLoop env ttl task items.reverse cache).2.1.countP
      (fun e => e == Event.updateLastUpdated task.id) = 0 := by
    rw [List.countP_eq_zero]
    intro e he hbe
    have heq : e = Event.updateLastUpdated task.id := eq_of_beq hbe
    subst heq
    rcases itemsLoop_events env ttl task items.reverse cache _ he with h | h
    · simp [layerEvent] at h
    · simp at h
  refine ⟨htrace, ?_, ?_, ?_, ?_⟩
  · rw [htrace, deliveredTexts_photo_cons, deliveredTexts_append, l2]
    simp [deliveredTexts]
  · rw [htrace, List.countP_cons, List.countP_append, l3, List.length_reverse]
    simp
  · rw [htrace, List.countP_cons, List.countP_append, hloopNoGot]
    simp
  · rw [htrace, List.countP_cons, List.countP_append, hloopNoUpd]
    simp

theorem task_delivery_order_witness :
    sceneEnv.itemsToSend sceneTask = Except.ok sceneItems
    ∧ sceneItems ≠ []
    ∧ sceneEnv.summarySend sceneTask = none
    ∧ (∀ it ∈ sceneItems, goodDeliver (sceneEnv.deliverEnv sceneTask it))
    ∧ sceneEnv.lastGotItemOutcome sceneTask = none
    ∧ ((processTask sceneEnv 691200 sceneTask []).2.1 =
        Event.sendPhoto 1 (PhotoRef.url summaryPhotoUrl)
            (some (itemsFoundCaption 3 (pyStr "n")))
          :: ((itemsLoop sceneEnv 691200 sceneTask [item1, item2, item3] []).2.1
              ++ [Event.updateLastGotItem 1, Event.updateLastUpdated 7])
       ∧ deliveredTexts (processTask sceneEnv 691200 sceneTask []).2.1 =
           itemsFoundCaption 3 (pyStr "n")
             :: [formatItemText item1, formatItemText item2, formatItemText item3]
       ∧ (processTask sceneEnv 691200 sceneTask []).2.1.countP
           (fun e => e == Event.sleep 500) = 3
       ∧ (processTask sceneEnv 691200 sceneTask []).2.1.countP
           (fun e => e == Event.updateLastGotItem 1) = 1
       ∧ (processTask sceneEnv 691200 sceneTask []).2.1.countP
           (fun e => e == Event.updateLastUpdated 7) = 1) :=
  ⟨rfl, by simp [sceneItems], rfl,
   fun it _ => ⟨⟨pyStr "F", rfl⟩, ⟨pyStr "F", rfl⟩, rfl⟩, rfl,
   task_delivery_order sceneEnv 691200 sceneTask sceneItems []
     rfl (by simp [sceneItems]) rfl
     (fun it _ => ⟨⟨pyStr "F", rfl⟩, ⟨pyStr "F", rfl⟩, rfl⟩) rfl⟩
